import Mathlib

/-!
Verification of the twitcher daemon sources against its specification.

Shallow embedding of the Python sources:
  src/twitcher/zkwrapper.py  (ZKWrapper: watch multiplexing, aget, watcher dispatch)
  src/twitcher/core.py       (MinimalSubprocess child setup, TwitcherObject state machine)
  src/twitcher/twitcher.py   (main select loop)
  src/twitcher/config.py     (ConfigFile.reload)

Pure data and callbacks are represented by ids (Nat); side effects performed by
the code (underlying zookeeper gets, fork/exec, fd manipulation) are recorded
as explicit effect lists so that theorems can count and order them.
-/

namespace Twitcher

/-! ### zkwrapper.py : ZKWrapper registration state

The two dictionaries `self._watches` and `self._handlers` map a znode path to
the list of registered callback functions.  Callbacks are modelled by ids.
Python dict semantics: `setdefault(path, []).append(x)` appends at the end of
the list bound to the key, creating the binding if absent; `pop(path, None)`
removes the binding and returns it. -/

def dictFind : List (String × List Nat) → String → Option (List Nat)
  | [], _ => Option.none
  | (k0, v) :: rest, k => if k0 = k then some v else dictFind rest k

def dictContains (d : List (String × List Nat)) (k : String) : Bool :=
  (dictFind d k).isSome

def dictAppend : List (String × List Nat) → String → Nat → List (String × List Nat)
  | [], k, x => [(k, [x])]
  | (k0, v) :: rest, k, x =>
      if k0 = k then (k0, v ++ [x]) :: rest else (k0, v) :: dictAppend rest k x

def dictRemove : List (String × List Nat) → String → List (String × List Nat)
  | [], _ => []
  | (k0, v) :: rest, k =>
      if k0 = k then dictRemove rest k else (k0, v) :: dictRemove rest k

structure ZKReg where
  watches : List (String × List Nat)
  handlers : List (String × List Nat)
deriving DecidableEq

/-- One underlying `zookeeper.aget` call sent to the service: the requested
path, and whether a watch callback was passed along (`w = self._watcher`
rather than `None`). -/
structure ZGet where
  path : String
  withWatch : Bool
deriving DecidableEq

/-- ZKWrapper.aget (zkwrapper.py lines 98-141).  `watcher` and `handler` are
optional callbacks (function objects are always truthy in Python, so
`if watcher:` is a presence test).  `register` and `get` test key membership
BEFORE the setdefault-append.  An underlying `zookeeper.aget` is issued iff
`register or get`, with the watch argument present iff `register`. -/
def aget (st : ZKReg) (path : String) (watcher handler : Option Nat) :
    ZKReg × List ZGet :=
  let register := watcher.isSome && !(dictContains st.watches path)
  let st1 := match watcher with
    | some w => { st with watches := dictAppend st.watches path w }
    | Option.none => st
  let get := handler.isSome && !(dictContains st1.handlers path)
  let st2 := match handler with
    | some h => { st1 with handlers := dictAppend st1.handlers path h }
    | Option.none => st1
  if register || get then (st2, [⟨path, register⟩]) else (st2, [])

/-- Driver: a sequence of `aget` registrations with no intervening
notification, accumulating the underlying gets issued. -/
def agetSeq (st : ZKReg) : List (String × Option Nat × Option Nat) → ZKReg × List ZGet
  | [] => (st, [])
  | c :: rest =>
      let r1 := aget st c.1 c.2.1 c.2.2
      let r2 := agetSeq r1.1 rest
      (r2.1, r1.2 ++ r2.2)

/-- zookeeper.SESSION_EVENT constant of the underlying client library. -/
def SESSION_EVENT : Int := -1

/-- One step per loop iteration of `while watches: callback = watches.pop()`:
Python `list.pop()` removes from the END of the list.  The fuel argument
bounds the number of iterations; the list shrinks by one element per
iteration, so fuel equal to the initial length is exact (see
`popAll_eq_reverse`). -/
def popAllFuel : Nat → List Nat → List Nat
  | _, [] => []
  | 0, _ :: _ => []
  | Nat.succ f, x :: xs =>
      (x :: xs).getLast (List.cons_ne_nil x xs) :: popAllFuel f (x :: xs).dropLast

/-- The order in which the while-pop loop invokes the callbacks. -/
def popAll (l : List Nat) : List Nat := popAllFuel l.length l

/-- ZKWrapper._watcher (zkwrapper.py lines 227-258).  Session events are
ignored.  Otherwise the whole watcher list for the path is popped out of the
dictionary and the callbacks are invoked one by one with `watches.pop()`.
The returned list records the invocation order of the callback ids. -/
def zkWatcher (st : ZKReg) (event : Int) (path : String) : ZKReg × List Nat :=
  if event = SESSION_EVENT then (st, [])
  else
    let ws := (dictFind st.watches path).getD []
    ({ st with watches := dictRemove st.watches path }, popAll ws)

/-! ### core.py : MinimalSubprocess child setup (lines 134-230)

The child half of `fork_exec` and `_child_exec`.  File-descriptor work,
identity switching and the user action are recorded as effects.  `uid` and
`gid` already resolved to numeric ids (`None` means not configured). -/

/-- A Python value returned by the user action: an int, None, or anything
else.  This is what the exit-code dispatch in `fork_exec` inspects. -/
inductive PyVal
  | intv (n : Int)
  | nonev
  | otherv
deriving DecidableEq

inductive PyErr
  /-- `_child_exec` line 163 evaluates the name `MAXFD`, which is defined
  nowhere in core.py, so Python raises NameError there. -/
  | nameErrorMAXFD
deriving DecidableEq

inductive ChildEffect
  | dup2 (src dst : Nat)
  | openDevNull (fd : Nat)
  | close (fd : Nat)
  | setgid (g : Int)
  | setuid (u : Int)
  | runFunc (result : PyVal)
deriving DecidableEq

/-- The soft and hard values of RLIMIT_NOFILE as returned by
`resource.getrlimit`; `Option.none` encodes RLIM_INFINITY. -/
structure RLimitNofile where
  soft : Option Nat
  hard : Option Nat
deriving DecidableEq

/-- Python truthiness of an optional integer: `if uid:` is False both for
`None` and for `0`. -/
def pyTruthy : Option Int → Bool
  | Option.none => false
  | some n => n != 0

/-- MinimalSubprocess._child_exec (core.py lines 134-177).
Steps: dup2 the pipe onto stdin; open /dev/null onto fd 1 and 2; compute
`maxfd = resource.getrlimit(resource.RLIMIT_NOFILE)[1]` (index 1 is the HARD
limit) and, if it is RLIM_INFINITY, evaluate `MAXFD` which is an undefined
name; close file descriptors `xrange(3, maxfd)`; `if gid: os.setgid(gid)`;
`if uid: os.setuid(uid)`; finally call `func()`.  The Python method body ends
after the `func()` call with no return statement, so the method returns None
(`PyVal.nonev`) whatever the action returned. -/
def child_exec (stdin_fd devnull_fd : Nat) (rl : RLimitNofile)
    (uid gid : Option Int) (funcRet : PyVal) :
    Except PyErr (List ChildEffect × PyVal) :=
  let pre := [ChildEffect.dup2 stdin_fd 0, ChildEffect.openDevNull devnull_fd,
              ChildEffect.dup2 devnull_fd 1, ChildEffect.dup2 devnull_fd 2]
  match rl.hard with
  | Option.none => Except.error PyErr.nameErrorMAXFD
  | some maxfd =>
      let closes := (List.range' 3 (maxfd - 3)).map ChildEffect.close
      let gEffs := if pyTruthy gid then [ChildEffect.setgid (gid.getD 0)] else []
      let uEffs := if pyTruthy uid then [ChildEffect.setuid (uid.getD 0)] else []
      Except.ok (pre ++ closes ++ gEffs ++ uEffs ++ [ChildEffect.runFunc funcRet],
                 PyVal.nonev)

/-- The effect list of a successful `_child_exec`, empty on error. -/
def childEffects (stdin_fd devnull_fd : Nat) (rl : RLimitNofile)
    (uid gid : Option Int) (funcRet : PyVal) : List ChildEffect :=
  match child_exec stdin_fd devnull_fd rl uid gid funcRet with
  | Except.ok r => r.1
  | Except.error _ => []

/-- The exit-code dispatch in the child branch of `fork_exec` (core.py lines
217-222): `if type(r) == int: os._exit(r) elif r is None: os._exit(0)` else
`os._exit(1)`. -/
def exitDispatch : PyVal → Int
  | PyVal.intv n => n
  | PyVal.nonev => 0
  | PyVal.otherv => 1

/-- Exit code of the forked child: the dispatch above applied to
`r = self._child_exec(stdin[0], func, uid=uid, gid=gid)`. -/
def childExitCode (stdin_fd devnull_fd : Nat) (rl : RLimitNofile)
    (uid gid : Option Int) (funcRet : PyVal) : Except PyErr Int :=
  match child_exec stdin_fd devnull_fd rl uid gid funcRet with
  | Except.ok r => Except.ok (exitDispatch r.2)
  | Except.error e => Except.error e

/-! ### core.py : TwitcherObject state machine (lines 233-490)

A TwitcherObject holds a run mode, the pipe_stdin flag, the list of child
processes, and `self._unhandled_watch` (a `(zh, path)` tuple, or None).
Calls into the default ZKWrapper and forks are recorded as effects; child
processes are modelled by a pid and an exited flag (the OS setting the flag
is an environment event, `markAllExited` below). -/

def QUEUE : Nat := 1
def PARALLEL : Nat := 2
def DISCARD : Nat := 3

structure TProc where
  pid : Nat
  exited : Bool
deriving DecidableEq

inductive Eff
  /-- `self._register_watch(handler=...)`: an aget on self._path against the
  default ZKWrapper, with `self._handler` passed iff the flag is true. -/
  | registerWatch (handler : Bool)
  /-- `self._exec(...)`: a MinimalSubprocess is forked for the action. -/
  | execRun
deriving DecidableEq

structure TObj where
  run_mode : Nat
  pipe_stdin : Bool
  processes : List TProc
  unhandled_watch : Option (Nat × String)
  nextPid : Nat
deriving DecidableEq

/-- TwitcherObject._watch (core.py lines 439-466).  If a process is running
and the mode is not PARALLEL the event is stored (overwriting any previous
one) and nothing else happens.  Otherwise the watch is re-registered with the
handler, and when pipe_stdin is off the action is executed immediately with
empty input (appending a fresh child process). -/
def twWatch (st : TObj) (zh : Nat) (path : String) : TObj × List Eff :=
  if st.processes ≠ [] ∧ st.run_mode ≠ PARALLEL then
    ({ st with unhandled_watch := some (zh, path) }, [])
  else
    if st.pipe_stdin then
      (st, [Eff.registerWatch true])
    else
      ({ st with processes := st.processes ++ [⟨st.nextPid, false⟩],
                 nextPid := st.nextPid + 1 },
       [Eff.registerWatch true, Eff.execRun])

/-- TwitcherObject._post_exec (core.py lines 408-437).  Runs only when
`self._unhandled_watch` is truthy.  DISCARD re-registers the watch with no
handler and (as in the source) does NOT clear `self._unhandled_watch`.
QUEUE clears it and replays the stored event through `_watch`.  Any other
mode only logs an error. -/
def postExec (st : TObj) : TObj × List Eff :=
  match st.unhandled_watch with
  | Option.none => (st, [])
  | some (zh, path) =>
      if st.run_mode = DISCARD then
        (st, [Eff.registerWatch false])
      else if st.run_mode = QUEUE then
        twWatch { st with unhandled_watch := Option.none } zh path
      else (st, [])

/-- The `for p in self._processes: ... self._processes.remove(p)` loop of
TwitcherObject.sigchld (core.py lines 326-335), with CPython semantics: the
list iterator keeps a position index, so removing the current element shifts
the remainder left and the following element is skipped.  `poll` reports an
exit iff the process has exited.  Returns the surviving list and the removed
(reaped) processes in removal order.
The fuel argument bounds the number of loop iterations; the iterator index
grows by one per iteration while the list never grows, so the loop performs
at most `l.length` iterations and fuel `l.length` is always sufficient
(`sigchldIter_fuel_irrel` below shows any sufficient fuel gives the same
result). -/
def sigchldIter : Nat → List TProc → Nat → List TProc × List TProc
  | 0, l, _ => (l, [])
  | Nat.succ f, l, i =>
      if h : i < l.length then
        let p := l.get ⟨i, h⟩
        if p.exited then
          let r := sigchldIter f (l.erase p) (i + 1)
          (r.1, p :: r.2)
        else sigchldIter f l (i + 1)
      else (l, [])

/-- TwitcherObject.sigchld (core.py lines 315-337): poll and remove exited
children; if any were removed, run `_post_exec`. -/
def sigchld (st : TObj) : TObj × List Eff :=
  let r := sigchldIter st.processes.length st.processes 0
  let st1 := { st with processes := r.1 }
  if r.2 ≠ [] then postExec st1 else (st1, [])

/-- Driver: deliver a sequence of watch notifications to the object,
accumulating effects. -/
def notifyAll (st : TObj) : List (Nat × String) → TObj × List Eff
  | [] => (st, [])
  | e :: rest =>
      let r1 := twWatch st e.1 e.2
      let r2 := notifyAll r1.1 rest
      (r2.1, r1.2 ++ r2.2)

/-- Environment event: every currently running child process exits (the OS
terminates them); a subsequent sigchld will reap them. -/
def markAllExited (st : TObj) : TObj :=
  { st with processes := st.processes.map (fun p => { p with exited := true }) }

/-- Driver: n rounds of SIGCHLD delivery, each handled by `sigchld`. -/
def reapRounds (st : TObj) : Nat → TObj × List Eff
  | 0 => (st, [])
  | Nat.succ k =>
      let r1 := sigchld st
      let r2 := reapRounds r1.1 k
      (r2.1, r1.2 ++ r2.2)

/-! ### twitcher.py : the main select loop (lines 60-93)

One iteration of `Twitcher.run`.  The object state is the
`self._sigchld_received` flag; the outcome of the `select.select` call is an
input from the environment. -/

structure MainState where
  sigchld_received : Bool
deriving DecidableEq

inductive SelectOutcome
  /-- select returned `([], [], [])` after the 60 second timeout. -/
  | timeout
  /-- select returned ready read / write descriptor lists (not all empty). -/
  | ready (iready : List Nat) (oready : List Nat)
  /-- select raised EINTR (retried transparently). -/
  | eintr
deriving DecidableEq

inductive LoopEff
  /-- `c.sigchld()` was invoked on every config object. -/
  | pollChildren
  /-- one byte was read from the signal notifier pipe. -/
  | readNotifier
  /-- `c.select(iready, oready)` was invoked on every config object. -/
  | dispatchSelect (iready : List Nat) (oready : List Nat)
deriving DecidableEq

/-- One iteration of the `while True` loop in Twitcher.run.  On entry, when
`self._sigchld_received` is set, all children are polled and the flag is
cleared.  On a select timeout the source executes `_sigchld_received = True`,
which binds a fresh LOCAL variable: the object attribute
`self._sigchld_received` is left untouched. -/
def loopOnce (st : MainState) (notifierFd : Nat) (sel : SelectOutcome) :
    MainState × List LoopEff :=
  let st1 := if st.sigchld_received then MainState.mk false else st
  let e1 := if st.sigchld_received then [LoopEff.pollChildren] else []
  match sel with
  | SelectOutcome.timeout => (st1, e1)
  | SelectOutcome.ready ir wr =>
      let e2 := if ir.contains notifierFd then [LoopEff.readNotifier] else []
      (st1, e1 ++ e2 ++ [LoopEff.dispatchSelect ir wr])
  | SelectOutcome.eintr => (st1, e1)

/-! ### config.py : ConfigFile.reload (lines 195-219)

`reload` first builds the exec_globals dictionary, whose values include
`core.QUEUE`, `core.PARALLEL`, `core.DISCARD`, `core.WATCH_DATA` and
`core.WATCH_CHILDREN`, looked up on the core module in source order.  Only
then comes the try block running `execfile`, collecting the configurations
and calling `init()` on each; the except clause logs and returns, and on
success `self._config_objects` is replaced wholesale. -/

/-- All names bound at the top level of src/twitcher/core.py (imports,
module globals, functions and classes). -/
def coreTopLevelNames : List String :=
  ["grp", "logging", "os", "resource", "threading", "types", "pwd", "sys",
   "time", "zookeeper", "zkwrapper", "default_zkwrapper", "default_ping_fd",
   "set_default_zkwrapper", "set_default_ping_fd", "QUEUE", "PARALLEL",
   "DISCARD", "UnknownUserError", "UnknownGroupError", "MinimalSubprocess",
   "TwitcherObject"]

/-- Python attribute lookup `core.<name>`: AttributeError when the module
does not define the name. -/
def coreAttr (name : String) : Except String Unit :=
  if coreTopLevelNames.contains name then Except.ok ()
  else Except.error ("AttributeError: " ++ name)

/-- Evaluation of the exec_globals dict literal (config.py lines 200-208):
the values are evaluated in source order; `namespace_config.Exec` and
`namespace_config.RegisterWatch` are plain bound methods and always resolve,
the remaining five values are attribute lookups on the core module. -/
def buildExecGlobals : Except String Unit := do
  coreAttr "QUEUE"
  coreAttr "PARALLEL"
  coreAttr "DISCARD"
  coreAttr "WATCH_DATA"
  coreAttr "WATCH_CHILDREN"

/-- A configuration object produced by parsing; `initOk` records whether its
`init()` call succeeds or raises. -/
structure ConfigObject where
  initOk : Bool
deriving DecidableEq

/-- The behaviour of `execfile` on the config file: either the parse raises,
or it yields the registered configuration objects. -/
structure ParserBehavior where
  parseResult : Except String (List ConfigObject)

structure ConfigFileState where
  config_objects : List ConfigObject
deriving DecidableEq

/-- `for o in objects: o.init()` - counts the init invocations performed; a
raising init is still an invocation, and aborts the loop. -/
def runInits : List ConfigObject → Nat × Bool
  | [] => (0, true)
  | o :: rest =>
      if o.initOk then
        let r := runInits rest
        (r.1 + 1, r.2)
      else (1, false)

/-- The try/except block of reload: on any exception (parse or init) log and
return with the state untouched; otherwise install the new object list.
Returns the new state and the number of init calls performed. -/
def reloadTryBlock (st : ConfigFileState) (p : ParserBehavior) :
    ConfigFileState × Nat :=
  match p.parseResult with
  | Except.error _ => (st, 0)
  | Except.ok objects =>
      let r := runInits objects
      if r.2 then (ConfigFileState.mk objects, r.1) else (st, r.1)

/-- ConfigFile.reload (config.py lines 195-219).  The exec_globals dict is
built before the try block; an exception there propagates to the caller with
the state untouched.  Result: (outcome, state after the call, number of
init() invocations performed). -/
def reload (st : ConfigFileState) (p : ParserBehavior) :
    Except String Unit × ConfigFileState × Nat :=
  match buildExecGlobals with
  | Except.error e => (Except.error e, st, 0)
  | Except.ok _ =>
      let r := reloadTryBlock st p
      (Except.ok (), r.1, r.2)

/-! ## Helper lemmas -/

theorem popAllFuel_eq_reverse (f : Nat) :
    ∀ (l : List Nat), l.length ≤ f → popAllFuel f l = l.reverse := by
  induction f with
  | zero =>
      intro l h
      have : l = [] := List.eq_nil_of_length_eq_zero (Nat.le_zero.mp h)
      subst this
      rfl
  | succ f ih =>
      intro l h
      cases l with
      | nil => rfl
      | cons x xs =>
          rw [popAllFuel, ih (x :: xs).dropLast
            (by simp only [List.length_dropLast, List.length_cons] at h ⊢; omega)]
          conv_rhs => rw [← List.dropLast_append_getLast (List.cons_ne_nil x xs)]
          rw [List.reverse_append]
          rfl

theorem popAll_eq_reverse (l : List Nat) : popAll l = l.reverse :=
  popAllFuel_eq_reverse l.length l le_rfl

theorem dictFind_dictRemove (d : List (String × List Nat)) (k : String) :
    dictFind (dictRemove d k) k = Option.none := by
  induction d with
  | nil => rfl
  | cons kv rest ih =>
      obtain ⟨k0, v⟩ := kv
      by_cases h : k0 = k
      · simpa [dictRemove, h] using ih
      · simpa [dictRemove, dictFind, h] using ih

theorem dictContains_dictAppend_self (d : List (String × List Nat)) (k : String) (x : Nat) :
    dictContains (dictAppend d k x) k = true := by
  induction d with
  | nil => simp [dictAppend, dictContains, dictFind]
  | cons kv rest ih =>
      obtain ⟨k0, v⟩ := kv
      by_cases h : k0 = k
      · simp [dictAppend, h, dictContains, dictFind]
      · simpa [dictAppend, h, dictContains, dictFind] using ih

theorem dictContains_dictAppend_mono (d : List (String × List Nat)) (k k2 : String) (x : Nat)
    (hc : dictContains d k2 = true) : dictContains (dictAppend d k x) k2 = true := by
  induction d with
  | nil => simp [dictContains, dictFind] at hc
  | cons kv rest ih =>
      obtain ⟨k0, v⟩ := kv
      by_cases h : k0 = k
      · subst h
        by_cases h2 : k0 = k2
        · subst h2
          simp [dictAppend, dictContains, dictFind]
        · simp only [dictContains, dictFind, h2, if_false] at hc
          simp [dictAppend, dictContains, dictFind, h2, hc]
      · by_cases h2 : k0 = k2
        · subst h2
          simp [dictAppend, dictContains, dictFind, h]
        · simp only [dictContains, dictFind, h2, if_false] at hc
          simp only [dictAppend, dictContains, dictFind, h, h2, if_false]
          exact ih hc

/-- An `aget` supplying both callbacks on a path that is already a key in
both dictionaries issues no underlying get: it only appends the callbacks. -/
theorem aget_saturated (st : ZKReg) (p : String) (w hid : Nat)
    (h1 : dictContains st.watches p = true) (h2 : dictContains st.handlers p = true) :
    aget st p (some w) (some hid) =
      (ZKReg.mk (dictAppend st.watches p w) (dictAppend st.handlers p hid), []) := by
  unfold aget
  simp [h1, h2]

/-- Once a path is a key of both dictionaries, any further sequence of
fully-supplied registrations issues no underlying get at all. -/
theorem agetSeq_saturated (p : String) :
    ∀ (calls : List (Nat × Nat)) (st : ZKReg),
      dictContains st.watches p = true → dictContains st.handlers p = true →
      (agetSeq st (calls.map (fun c => (p, some c.1, some c.2)))).2 = [] := by
  intro calls
  induction calls with
  | nil => intro st _ _; rfl
  | cons c rest ih =>
      intro st h1 h2
      simp only [List.map_cons, agetSeq]
      rw [aget_saturated st p c.1 c.2 h1 h2]
      simpa using ih _ (dictContains_dictAppend_mono _ p p c.1 h1)
        (dictContains_dictAppend_mono _ p p c.2 h2)

theorem reload_keeps_state (st : ConfigFileState) (p : ParserBehavior) :
    (reload st p).2.1 = st := rfl

/-! ## Lemmas for the TwitcherObject state machine -/

theorem sigchldIter_stop (f : Nat) (l : List TProc) (i : Nat) (h : ¬ i < l.length) :
    sigchldIter f l i = (l, []) := by
  cases f with
  | zero => rfl
  | succ f => simp [sigchldIter, h]

/-- Fuel adequacy: any fuel of at least the number of remaining positions
gives the same result, so fuel `l.length` at index 0 is exact. -/
theorem sigchldIter_fuel_irrel (f : Nat) :
    ∀ (g : Nat) (l : List TProc) (i : Nat), l.length - i ≤ f → l.length - i ≤ g →
      sigchldIter f l i = sigchldIter g l i := by
  induction f with
  | zero =>
      intro g l i hf _
      have h : ¬ i < l.length := by omega
      rw [sigchldIter_stop _ _ _ h, sigchldIter_stop _ _ _ h]
  | succ f ih =>
      intro g l i hf hg
      by_cases h : i < l.length
      · cases g with
        | zero => omega
        | succ g =>
            have hp : l.get ⟨i, h⟩ ∈ l := l.get_mem i h
            have hlen := List.length_erase_of_mem hp
            simp only [sigchldIter, dif_pos h]
            by_cases hex : (l.get ⟨i, h⟩).exited
            · simp only [if_pos hex]
              rw [ih g (l.erase (l.get ⟨i, h⟩)) (i + 1) (by omega) (by omega)]
            · simp only [if_neg hex]
              exact ih g l (i + 1) (by omega) (by omega)
      · rw [sigchldIter_stop _ _ _ h, sigchldIter_stop _ _ _ h]

theorem sigchldIter_sublist (f : Nat) :
    ∀ (l : List TProc) (i : Nat), (sigchldIter f l i).1.Sublist l := by
  induction f with
  | zero => intro l i; exact List.Sublist.refl l
  | succ f ih =>
      intro l i
      by_cases h : i < l.length
      · simp only [sigchldIter, dif_pos h]
        by_cases hex : (l.get ⟨i, h⟩).exited
        · simp only [if_pos hex]
          exact (ih _ _).trans (List.erase_sublist _ _)
        · simp only [if_neg hex]
          exact ih _ _
      · rw [sigchldIter_stop _ _ _ h]

theorem sigchldIter_removed_head (f : Nat) (l : List TProc) (i : Nat) (h : i < l.length)
    (hex : (l.get ⟨i, h⟩).exited = true) :
    (sigchldIter (Nat.succ f) l i).2 ≠ [] := by
  simp only [sigchldIter, dif_pos h]
  rw [if_pos hex]
  simp

theorem sigchldIter_shrinks (f : Nat) :
    ∀ (l : List TProc) (i : Nat), (sigchldIter f l i).2 ≠ [] →
      (sigchldIter f l i).1.length < l.length := by
  induction f with
  | zero => intro l i hne; exact absurd rfl hne
  | succ f ih =>
      intro l i hne
      by_cases h : i < l.length
      · simp only [sigchldIter, dif_pos h] at hne ⊢
        by_cases hex : (l.get ⟨i, h⟩).exited
        · simp only [if_pos hex] at hne ⊢
          have h1 := (sigchldIter_sublist f (l.erase (l.get ⟨i, h⟩)) (i + 1)).length_le
          have h2 := List.length_erase_of_mem (l.get_mem i h)
          show (sigchldIter f (l.erase (l.get ⟨i, h⟩)) (i + 1)).1.length < l.length
          omega
        · simp only [if_neg hex] at hne ⊢
          exact ih l (i + 1) hne
      · rw [sigchldIter_stop _ _ _ h] at hne
        exact absurd rfl hne

theorem sigchldIter_noop (f : Nat) :
    ∀ (l : List TProc) (i : Nat), (∀ p ∈ l, p.exited = false) →
      sigchldIter f l i = (l, []) := by
  induction f with
  | zero => intro l i _; rfl
  | succ f ih =>
      intro l i hall
      by_cases h : i < l.length
      · have hx : (l.get ⟨i, h⟩).exited = false := hall _ (l.get_mem i h)
        simp only [sigchldIter, dif_pos h, hx, Bool.false_eq_true, if_false]
        exact ih l (i + 1) hall
      · exact sigchldIter_stop _ _ _ h

theorem sigchldIter_all_exited_removed (l : List TProc) (hne : l ≠ [])
    (hall : ∀ p ∈ l, p.exited = true) : (sigchldIter l.length l 0).2 ≠ [] := by
  cases l with
  | nil => exact absurd rfl hne
  | cons x xs =>
      exact sigchldIter_removed_head xs.length (x :: xs) 0 (by simp)
        (hall x (List.mem_cons_self x xs))

theorem sigchld_eq (st : TObj) :
    sigchld st = (if (sigchldIter st.processes.length st.processes 0).2 ≠ []
      then postExec { st with processes := (sigchldIter st.processes.length st.processes 0).1 }
      else ({ st with processes := (sigchldIter st.processes.length st.processes 0).1 }, [])) :=
  rfl

theorem reapRounds_succ (st : TObj) (k : Nat) :
    reapRounds st (Nat.succ k) =
      ((reapRounds (sigchld st).1 k).1, (sigchld st).2 ++ (reapRounds (sigchld st).1 k).2) :=
  rfl

theorem twWatch_postpone (st : TObj) (zh : Nat) (path : String)
    (h1 : st.processes ≠ []) (h2 : st.run_mode ≠ PARALLEL) :
    twWatch st zh path = ({ st with unhandled_watch := some (zh, path) }, []) := by
  unfold twWatch
  rw [if_pos ⟨h1, h2⟩]

theorem twWatch_run (st : TObj) (zh : Nat) (path : String) (h1 : st.processes = []) :
    twWatch st zh path =
      ((if st.pipe_stdin then st
        else { st with processes := [TProc.mk st.nextPid false], nextPid := st.nextPid + 1 }),
       Eff.registerWatch true :: (if st.pipe_stdin then [] else [Eff.execRun])) := by
  unfold twWatch
  rw [if_neg (by simp [h1])]
  cases hb : st.pipe_stdin
  · simp [h1]
  · simp

theorem postExec_queue (st : TObj) (zh : Nat) (path : String)
    (hm : st.run_mode = QUEUE) (hu : st.unhandled_watch = some (zh, path)) :
    postExec st = twWatch { st with unhandled_watch := Option.none } zh path := by
  unfold postExec
  rw [hu]
  simp [hm, QUEUE, DISCARD]

theorem reapRounds_noop (k : Nat) :
    ∀ (st : TObj), (∀ p ∈ st.processes, p.exited = false) → reapRounds st k = (st, []) := by
  induction k with
  | zero => intro st _; rfl
  | succ k ih =>
      intro st hall
      have h1 : sigchld st = (st, []) := by
        rw [sigchld_eq, sigchldIter_noop _ _ _ hall]
        simp
      rw [reapRounds_succ, h1]
      simp [ih st hall]

/-- During the notification phase of a Running interval (processes nonempty,
mode not PARALLEL), every notification only overwrites the stored pending
event: no effect is emitted and the last notification wins. -/
theorem notifyAll_postpone :
    ∀ (notifs : List (Nat × String)) (st : TObj),
      st.run_mode ≠ PARALLEL → st.processes ≠ [] → notifs ≠ [] →
      notifyAll st notifs = ({ st with unhandled_watch := notifs.getLast? }, []) := by
  intro notifs
  induction notifs with
  | nil => intro st _ _ hne; exact absurd rfl hne
  | cons e rest ih =>
      intro st hm hne _
      simp only [notifyAll]
      rw [twWatch_postpone st e.1 e.2 hne hm]
      cases rest with
      | nil => simp [notifyAll]
      | cons e2 t =>
          rw [ih { st with unhandled_watch := some (e.1, e.2) } hm hne (by simp)]
          simp [List.getLast?_cons_cons]

/-- After a Running interval of a QUEUE-mode object with a stored pending
event ends (every child has exited), reaping the children over any
sufficient number of SIGCHLD rounds produces exactly one deferred run: one
re-registration of the watch with the handler, plus an immediate exec when
pipe_stdin is off, and the pending slot is cleared. -/
theorem reapRounds_queue_replay (n : Nat) :
    ∀ (st : TObj) (ev : Nat × String),
      st.run_mode = QUEUE → st.unhandled_watch = some ev → st.processes ≠ [] →
      (∀ p ∈ st.processes, p.exited = true) → st.processes.length ≤ n →
      (reapRounds st n).2 =
        Eff.registerWatch true :: (if st.pipe_stdin then [] else [Eff.execRun]) ∧
      (reapRounds st n).1.unhandled_watch = Option.none := by
  induction n with
  | zero =>
      intro st ev _ _ hne _ hlen
      exact absurd (List.eq_nil_of_length_eq_zero (Nat.le_zero.mp hlen)) hne
  | succ n ih =>
      intro st ev hm hu hne hall hlen
      obtain ⟨zh, path⟩ := ev
      have hrm : (sigchldIter st.processes.length st.processes 0).2 ≠ [] :=
        sigchldIter_all_exited_removed st.processes hne hall
      have hsub : (sigchldIter st.processes.length st.processes 0).1.Sublist st.processes :=
        sigchldIter_sublist _ _ _
      have hshr : (sigchldIter st.processes.length st.processes 0).1.length <
          st.processes.length := sigchldIter_shrinks _ _ _ hrm
      have hsig : sigchld st =
          postExec { st with processes := (sigchldIter st.processes.length st.processes 0).1 } := by
        rw [sigchld_eq, if_pos hrm]
      have hpe : sigchld st =
          twWatch { st with processes := (sigchldIter st.processes.length st.processes 0).1,
                            unhandled_watch := Option.none } zh path := by
        rw [hsig]
        exact postExec_queue _ zh path hm hu
      by_cases hempty : (sigchldIter st.processes.length st.processes 0).1 = []
      · -- the round that empties the process list: the stored event replays
        rw [hempty] at hpe
        rw [twWatch_run _ zh path rfl] at hpe
        rw [reapRounds_succ, hpe]
        cases hb : st.pipe_stdin
        · simp only [hb, Bool.false_eq_true, if_false]
          rw [reapRounds_noop n _ (by intro p hp; simp at hp; rw [hp])]
          simp
        · simp only [hb, if_true]
          rw [reapRounds_noop n _ (by intro p hp; simp at hp)]
          simp
      · -- some children survive this round: the event is re-stored untouched
        rw [twWatch_postpone _ zh path hempty (by simp [hm, QUEUE, PARALLEL])] at hpe
        rw [reapRounds_succ, hpe]
        have := ih { st with processes := (sigchldIter st.processes.length st.processes 0).1,
                             unhandled_watch := some (zh, path) } (zh, path) hm rfl hempty
          (fun p hp => hall p (hsub.subset hp))
          (by show (sigchldIter st.processes.length st.processes 0).1.length ≤ n; omega)
        simpa using this

/-- Claim C2, counterexample: with watchers 1 and 2 registered for path /x in
registration order, a watch-fire notification invokes them in the order
[2, 1], not in registration order [1, 2] as the claim states. -/
theorem c2_counterexample :
    (zkWatcher (ZKReg.mk [("/x", [1, 2])] []) 0 "/x").2 = [2, 1] ∧
    (zkWatcher (ZKReg.mk [("/x", [1, 2])] []) 0 "/x").2 ≠ [1, 2] := by
  decide

/-- Claim C2, amended: for every watch-fire notification that is not a
session event, every watcher registered for the path at notification time is
invoked exactly once, in REVERSE registration order (the list is drained with
`pop()` from the end), and the watcher entry for the path is removed from the
dictionary immediately after dispatch. -/
theorem c2_reverse_order_and_cleared (st : ZKReg) (event : Int) (path : String)
    (h : event ≠ SESSION_EVENT) :
    (zkWatcher st event path).2 = ((dictFind st.watches path).getD []).reverse ∧
    dictFind (zkWatcher st event path).1.watches path = Option.none := by
  unfold zkWatcher
  rw [if_neg h]
  exact ⟨popAll_eq_reverse _, dictFind_dictRemove _ _⟩

/-- Witness for C2 at a concrete input: event 0 for path /a with three
registered watchers. -/
theorem c2_reverse_order_and_cleared_witness :
    (0 : Int) ≠ SESSION_EVENT ∧
    ((zkWatcher (ZKReg.mk [("/a", [4, 5, 6])] []) 0 "/a").2 =
        ((dictFind (ZKReg.mk [("/a", [4, 5, 6])] []).watches "/a").getD []).reverse ∧
      dictFind (zkWatcher (ZKReg.mk [("/a", [4, 5, 6])] []) 0 "/a").1.watches "/a" =
        Option.none) :=
  ⟨by decide, c2_reverse_order_and_cleared (ZKReg.mk [("/a", [4, 5, 6])] []) 0 "/a" (by decide)⟩

/-- Claim C4, counterexample: a registration supplying only a watcher
followed by one supplying a watcher and a handler (exactly the
`_register_watch(handler=False)` then `_register_watch()` pattern of
core.py), with no intervening notification, sends TWO underlying gets for
the same path, not one. -/
theorem c4_counterexample :
    (agetSeq (ZKReg.mk [] []) [("/x", some 1, Option.none), ("/x", some 2, some 3)]).2 =
      [ZGet.mk "/x" true, ZGet.mk "/x" false] ∧
    (agetSeq (ZKReg.mk [] []) [("/x", some 1, Option.none), ("/x", some 2, some 3)]).2.length ≠ 1 := by
  decide

/-- Claim C4, amended: a sequence of registrations for one path, each
supplying BOTH a watcher and a handler and with no intervening notification,
issues exactly one underlying get (sent by the first registration, with the
watch attached); every later registration shares that outstanding get.  Two
gets can occur only when a callback kind (watcher or handler) first appears
in a later call than the other kind. -/
theorem c4_one_get_when_both_supplied (p : String) (calls : List (Nat × Nat))
    (hne : calls ≠ []) :
    (agetSeq (ZKReg.mk [] []) (calls.map (fun c => (p, some c.1, some c.2)))).2 =
      [ZGet.mk p true] := by
  cases calls with
  | nil => exact absurd rfl hne
  | cons c rest =>
      simp only [List.map_cons, agetSeq]
      have h1 : aget (ZKReg.mk [] []) p (some c.1) (some c.2) =
          (ZKReg.mk [(p, [c.1])] [(p, [c.2])], [ZGet.mk p true]) := by
        unfold aget
        simp [dictContains, dictFind, dictAppend]
      rw [h1]
      simpa using agetSeq_saturated p rest (ZKReg.mk [(p, [c.1])] [(p, [c.2])])
        (by simp [dictContains, dictFind]) (by simp [dictContains, dictFind])

/-- Witness for C4 at a concrete input: two fully-supplied registrations for
path /x share one underlying get. -/
theorem c4_one_get_when_both_supplied_witness :
    ([(1, 2), (3, 4)] : List (Nat × Nat)) ≠ [] ∧
    (agetSeq (ZKReg.mk [] [])
        (([(1, 2), (3, 4)] : List (Nat × Nat)).map (fun c => ("/x", some c.1, some c.2)))).2 =
      [ZGet.mk "/x" true] :=
  ⟨by decide, c4_one_get_when_both_supplied "/x" [(1, 2), (3, 4)] (by decide)⟩

/-! ## Claims about the TwitcherObject state machine -/

/-- Claim C3: for a QUEUE-mode object, any nonempty sequence of change
notifications arriving while children are running causes no effect at the
time (the pending slot holds the most recent notification), and once every
child of the interval has exited, reaping them (over as many SIGCHLD rounds
as there were children, which always suffices) triggers exactly one deferred
run: one watch re-registration with the handler, plus one immediate exec
when pipe_stdin is off, after which the pending slot is clear. -/
theorem c3_queue_single_deferred_run (st : TObj) (notifs : List (Nat × String))
    (hm : st.run_mode = QUEUE) (hne : st.processes ≠ []) (hnn : notifs ≠ []) :
    (notifyAll st notifs).2 = [] ∧
    (notifyAll st notifs).1.unhandled_watch = notifs.getLast? ∧
    (reapRounds (markAllExited (notifyAll st notifs).1)
        (markAllExited (notifyAll st notifs).1).processes.length).2 =
      Eff.registerWatch true :: (if st.pipe_stdin then [] else [Eff.execRun]) ∧
    (reapRounds (markAllExited (notifyAll st notifs).1)
        (markAllExited (notifyAll st notifs).1).processes.length).1.unhandled_watch =
      Option.none := by
  have hnp : st.run_mode ≠ PARALLEL := by rw [hm]; decide
  rw [notifyAll_postpone notifs st hnp hne hnn]
  obtain ⟨e, he⟩ := Option.isSome_iff_exists.mp (List.getLast?_isSome.mpr hnn)
  refine ⟨rfl, rfl, ?_⟩
  have := reapRounds_queue_replay
    (markAllExited { st with unhandled_watch := notifs.getLast? }).processes.length
    (markAllExited { st with unhandled_watch := notifs.getLast? }) e
    (by simpa [markAllExited] using hm)
    (by simpa [markAllExited] using he)
    (by simpa [markAllExited] using hne)
    (by intro p hp
        simp only [markAllExited, List.mem_map] at hp
        obtain ⟨q, _, rfl⟩ := hp
        rfl)
    le_rfl
  simpa [markAllExited] using this

/-- Witness for C3 at a concrete input: two running children, three
notifications, pipe_stdin off. -/
theorem c3_queue_single_deferred_run_witness :
    (TObj.mk QUEUE false [TProc.mk 1 false, TProc.mk 2 false] Option.none 10).run_mode
      = QUEUE ∧
    (TObj.mk QUEUE false [TProc.mk 1 false, TProc.mk 2 false] Option.none 10).processes
      ≠ [] ∧
    ([(0, "/a"), (0, "/b"), (0, "/c")] : List (Nat × String)) ≠ [] ∧
    ((notifyAll (TObj.mk QUEUE false [TProc.mk 1 false, TProc.mk 2 false] Option.none 10)
        [(0, "/a"), (0, "/b"), (0, "/c")]).2 = [] ∧
      (notifyAll (TObj.mk QUEUE false [TProc.mk 1 false, TProc.mk 2 false] Option.none 10)
        [(0, "/a"), (0, "/b"), (0, "/c")]).1.unhandled_watch =
          ([(0, "/a"), (0, "/b"), (0, "/c")] : List (Nat × String)).getLast? ∧
      (reapRounds (markAllExited (notifyAll
            (TObj.mk QUEUE false [TProc.mk 1 false, TProc.mk 2 false] Option.none 10)
            [(0, "/a"), (0, "/b"), (0, "/c")]).1)
          (markAllExited (notifyAll
            (TObj.mk QUEUE false [TProc.mk 1 false, TProc.mk 2 false] Option.none 10)
            [(0, "/a"), (0, "/b"), (0, "/c")]).1).processes.length).2 =
        Eff.registerWatch true ::
          (if (TObj.mk QUEUE false [TProc.mk 1 false, TProc.mk 2 false]
              Option.none 10).pipe_stdin then [] else [Eff.execRun]) ∧
      (reapRounds (markAllExited (notifyAll
            (TObj.mk QUEUE false [TProc.mk 1 false, TProc.mk 2 false] Option.none 10)
            [(0, "/a"), (0, "/b"), (0, "/c")]).1)
          (markAllExited (notifyAll
            (TObj.mk QUEUE false [TProc.mk 1 false, TProc.mk 2 false] Option.none 10)
            [(0, "/a"), (0, "/b"), (0, "/c")]).1).processes.length).1.unhandled_watch =
        Option.none) :=
  ⟨rfl, by decide, by decide,
    c3_queue_single_deferred_run
      (TObj.mk QUEUE false [TProc.mk 1 false, TProc.mk 2 false] Option.none 10)
      [(0, "/a"), (0, "/b"), (0, "/c")] rfl (by decide) (by decide)⟩

/-- Claim C6: in DISCARD mode, after one notification arrives during a run,
the completion of the run does re-register the watch with no handler, but
the source never clears `self._unhandled_watch` in the DISCARD branch of
`_post_exec`: the pending marker survives, so a later run that receives NO
notifications still performs a spurious re-registration when it completes
(each such completion registers one more watcher with the multiplexer),
contrary to the claim. -/
theorem c6_discard_marker_not_cleared :
    (let st0 : TObj := TObj.mk DISCARD false [TProc.mk 1 false] Option.none 2
     let r1 := reapRounds (markAllExited (twWatch st0 0 "/x").1) 1
     let r2 := reapRounds (markAllExited (twWatch r1.1 0 "/x").1) 1
     r1.2 = [Eff.registerWatch false] ∧
     r1.1.unhandled_watch = some (0, "/x") ∧
     r1.1.unhandled_watch ≠ Option.none ∧
     r2.2 = [Eff.registerWatch false] ∧ r2.2 ≠ []) := by
  decide

/-! ## Claims about the forked child (core.py MinimalSubprocess) -/

/-- Claim C5: the exit-code dispatch in fork_exec inspects the return value
of `_child_exec`, but `_child_exec` discards the result of `func()` and
falls off its end, returning None.  So an action returning the integer 5
still makes the child exit 0; indeed whenever `_child_exec` completes, the
child exits 0 whatever the action returned.  The claimed behaviour would
have been `exitDispatch (PyVal.intv 5) = 5`. -/
theorem c5_child_always_exits_zero :
    childExitCode 4 5 (RLimitNofile.mk (some 5) (some 8)) Option.none Option.none
        (PyVal.intv 5) = Except.ok 0 ∧
    exitDispatch (PyVal.intv 5) = 5 ∧
    (∀ (s : Option Nat) (v : Nat) (uid gid : Option Int) (r : PyVal),
      childExitCode 4 5 (RLimitNofile.mk s (some v)) uid gid r = Except.ok 0) :=
  ⟨rfl, rfl, fun _ _ _ _ _ => rfl⟩

/-- Claim C9, counterexample: with numeric uid 0 and gid 0 configured, the
child performs neither setuid(0) nor setgid(0): the `if uid:` / `if gid:`
tests treat 0 like None and silently skip the switch. -/
theorem c9_counterexample :
    ChildEffect.setuid 0 ∉
      childEffects 4 5 (RLimitNofile.mk (some 5) (some 8)) (some 0) (some 0) PyVal.nonev ∧
    ChildEffect.setgid 0 ∉
      childEffects 4 5 (RLimitNofile.mk (some 5) (some 8)) (some 0) (some 0) PyVal.nonev := by
  decide

/-- Claim C9, amended: the identity switch is performed exactly for NONZERO
configured ids (group before user, after the fd cleanup); a configured uid
or gid equal to 0 is silently skipped, like an absent one. -/
theorem c9_nonzero_ids_switched (u g : Int) (hu : u ≠ 0) (hg : g ≠ 0) (v : Nat) (r : PyVal) :
    child_exec 4 5 (RLimitNofile.mk (some v) (some v)) (some u) (some g) r =
      Except.ok ([ChildEffect.dup2 4 0, ChildEffect.openDevNull 5, ChildEffect.dup2 5 1,
          ChildEffect.dup2 5 2] ++ (List.range' 3 (v - 3)).map ChildEffect.close
          ++ [ChildEffect.setgid g] ++ [ChildEffect.setuid u] ++ [ChildEffect.runFunc r],
        PyVal.nonev) := by
  unfold child_exec
  simp [pyTruthy, hu, hg]

/-- Witness for C9 at a concrete input: uid 7 and gid 9 are both switched,
group first. -/
theorem c9_nonzero_ids_switched_witness :
    (7 : Int) ≠ 0 ∧ (9 : Int) ≠ 0 ∧
    child_exec 4 5 (RLimitNofile.mk (some 5) (some 5)) (some 7) (some 9) PyVal.nonev =
      Except.ok ([ChildEffect.dup2 4 0, ChildEffect.openDevNull 5, ChildEffect.dup2 5 1,
          ChildEffect.dup2 5 2] ++ (List.range' 3 (5 - 3)).map ChildEffect.close
          ++ [ChildEffect.setgid 9] ++ [ChildEffect.setuid 7] ++ [ChildEffect.runFunc PyVal.nonev],
        PyVal.nonev) :=
  ⟨by decide, by decide, c9_nonzero_ids_switched 7 9 (by decide) (by decide) 5 PyVal.nonev⟩

/-- Claim C10: the close loop reads index [1] of getrlimit, the HARD limit,
not the soft one: with soft limit 5 and hard limit 8 the child closes fd 7.
And when the hard limit is RLIM_INFINITY the substitute ceiling `MAXFD` is
an undefined name, so the child raises NameError instead of running the
close loop over a configured finite bound. -/
theorem c10_close_loop_uses_hard_limit :
    child_exec 4 5 (RLimitNofile.mk (some 5) Option.none) Option.none Option.none PyVal.nonev =
      Except.error PyErr.nameErrorMAXFD ∧
    ChildEffect.close 7 ∈
      childEffects 4 5 (RLimitNofile.mk (some 5) (some 8)) Option.none Option.none PyVal.nonev :=
  ⟨rfl, by decide⟩

/-! ## Claims about twitcher.py (the select loop) -/

/-- Claim C7: on a select timeout the source executes
`_sigchld_received = True`, a LOCAL binding, not an assignment to
`self._sigchld_received`; the object flag stays false, so the following
iteration performs no child polling (no `pollChildren` effect), contrary to
the claim. -/
theorem c7_timeout_flag_stays_unset :
    (loopOnce (MainState.mk false) 0 SelectOutcome.timeout).1.sigchld_received = false ∧
    (loopOnce (MainState.mk false) 0 SelectOutcome.timeout).2 = [] ∧
    (loopOnce (loopOnce (MainState.mk false) 0 SelectOutcome.timeout).1 0
        (SelectOutcome.ready [0] [])).2 =
      [LoopEff.readNotifier, LoopEff.dispatchSelect [0] []] := by
  decide

/-! ## Claims about config.py (ConfigFile.reload) -/

/-- Claim C1: every call to reload raises AttributeError while building
exec_globals (core.WATCH_DATA is evaluated first of the two undefined
attributes), before the try block: the outcome never depends on the parser,
no init is ever invoked, the state is unchanged, and iterating reload from a
fresh ConfigFile never makes `_config_objects` non-empty. -/
theorem c1_reload_always_raises (st : ConfigFileState) (p : ParserBehavior) :
    reload st p = (Except.error "AttributeError: WATCH_DATA", st, 0) ∧
    ∀ (ps : List ParserBehavior),
      (ps.foldl (fun s q => (reload s q).2.1) (ConfigFileState.mk [])).config_objects = [] := by
  refine ⟨rfl, ?_⟩
  intro ps
  suffices hgen : ∀ (s : ConfigFileState),
      ps.foldl (fun s q => (reload s q).2.1) s = s by
    rw [hgen]
  induction ps with
  | nil => intro s; rfl
  | cons q rest ih =>
      intro s
      simp only [List.foldl_cons]
      exact ih s

/-- Claim C8: a reload invocation whose parse would succeed with two
descriptors whose init calls would succeed still raises before the parse,
keeps the previously installed descriptor set, and performs zero init
invocations; the success path required by the claim is unreachable. -/
theorem c8_reload_success_path_unreachable :
    reload (ConfigFileState.mk [ConfigObject.mk true])
        (ParserBehavior.mk (Except.ok [ConfigObject.mk true, ConfigObject.mk true])) =
      (Except.error "AttributeError: WATCH_DATA", ConfigFileState.mk [ConfigObject.mk true], 0) :=
  rfl

end Twitcher
